import Mathlib

set_option maxRecDepth 8000
set_option maxHeartbeats 1000000

/-!
Verification development for the VortexAi repository (two Python scripts:
`vortexai.py`, the query tool, and `installation.py`, the setup tool).
The Python code is shallowly embedded: every definition below is a direct
translation of the corresponding Python function, with ambient effects
(environment variables, the filesystem, the HTTP response) passed in
explicitly and the produced effects (printed lines, file writes) returned
explicitly.
-/

/- ANSI color codes from the `Colors` class shared by both scripts. -/

def ansiReset : String := "\x1b[0m"

def ansiRed : String := "\x1b[91m"

def ansiGreen : String := "\x1b[92m"

def ansiYellow : String := "\x1b[93m"

def ansiBlue : String := "\x1b[94m"

def ansiMagenta : String := "\x1b[95m"

def ansiCyan : String := "\x1b[96m"

def ansiBold : String := "\x1b[1m"

def ansiUnderline : String := "\x1b[4m"

/-- Whitespace characters removed by Python `str.strip()` (ASCII part of the
Python whitespace class; the claims only involve ASCII whitespace). -/
def isPySpace (c : Char) : Bool :=
  c == ' ' || c == '\t' || c == '\n' || c == '\r' || c == '\x0b' || c == '\x0c'

/-- Model of Python `str.strip()`: remove leading and trailing whitespace. -/
def pyStrip (s : String) : String :=
  String.mk (((s.data.dropWhile isPySpace).reverse.dropWhile isPySpace).reverse)

/-- Rebuilding a string from its character list is the identity. -/
theorem strMkData (s : String) : String.mk s.data = s := rfl

/-- Substring relation on strings (contiguous containment). -/
def strHasSub (needle hay : String) : Prop := needle.data <:+: hay.data

instance (needle hay : String) : Decidable (strHasSub needle hay) := by
  unfold strHasSub; infer_instance

/- JSON values, as produced by Python `json.loads`: objects keep the field
order of the source text.  Numbers are kept as their source lexeme (no claim
in this development inspects a numeric value). -/

inductive Json where
  | null : Json
  | bool (b : Bool) : Json
  | num (lexeme : String) : Json
  | str (s : String) : Json
  | arr (items : List Json) : Json
  | obj (fields : List (String × Json)) : Json

/-- JSON whitespace accepted between tokens by `json.loads`. -/
def isJsonWs (c : Char) : Bool :=
  c == ' ' || c == '\t' || c == '\n' || c == '\r'

def skipWs (cs : List Char) : List Char := cs.dropWhile isJsonWs

/-- Numeric value of one hexadecimal digit. -/
def hexVal (c : Char) : Option Nat :=
  if '0' ≤ c ∧ c ≤ '9' then some (c.toNat - 48)
  else if 'a' ≤ c ∧ c ≤ 'f' then some (c.toNat - 87)
  else if 'A' ≤ c ∧ c ≤ 'F' then some (c.toNat - 55)
  else none

def hex4 (h1 h2 h3 h4 : Char) : Option Nat := do
  let a ← hexVal h1
  let b ← hexVal h2
  let c ← hexVal h3
  let d ← hexVal h4
  some (a * 4096 + b * 256 + c * 16 + d)

/-- Body of a JSON string literal, after the opening quote: returns the
decoded characters and the input remaining after the closing quote.
Mirrors the strict mode of Python `json.loads`: raw control characters are
rejected, escape sequences are the JSON ones, and `\uXXXX` surrogate pairs
are combined.  (Lone surrogates, which Lean `Char` cannot represent, decode
to NUL; no claim exercises them.)  Fueled so that the recursion is
structural; every recursive call consumes at least one character. -/
def parseStrCharsF : Nat → List Char → Option (List Char × List Char)
  | 0, _ => none
  | _ + 1, [] => none
  | _ + 1, '"' :: rest => some ([], rest)
  | fuel + 1, '\\' :: 'u' :: h1 :: h2 :: h3 :: h4 :: rest =>
    match hex4 h1 h2 h3 h4 with
    | none => none
    | some n =>
      if 0xd800 ≤ n ∧ n ≤ 0xdbff then
        match rest with
        | '\\' :: 'u' :: g1 :: g2 :: g3 :: g4 :: rest2 =>
          match hex4 g1 g2 g3 g4 with
          | none => none
          | some m =>
            if 0xdc00 ≤ m ∧ m ≤ 0xdfff then
              (parseStrCharsF fuel rest2).map (fun p =>
                (Char.ofNat (0x10000 + (n - 0xd800) * 1024 + (m - 0xdc00)) :: p.1, p.2))
            else
              (parseStrCharsF fuel rest).map (fun p => (Char.ofNat n :: p.1, p.2))
        | _ => (parseStrCharsF fuel rest).map (fun p => (Char.ofNat n :: p.1, p.2))
      else
        (parseStrCharsF fuel rest).map (fun p => (Char.ofNat n :: p.1, p.2))
  | fuel + 1, '\\' :: e :: rest =>
    if e = '"' then (parseStrCharsF fuel rest).map (fun p => ('"' :: p.1, p.2))
    else if e = '\\' then (parseStrCharsF fuel rest).map (fun p => ('\\' :: p.1, p.2))
    else if e = '/' then (parseStrCharsF fuel rest).map (fun p => ('/' :: p.1, p.2))
    else if e = 'b' then (parseStrCharsF fuel rest).map (fun p => ('\x08' :: p.1, p.2))
    else if e = 'f' then (parseStrCharsF fuel rest).map (fun p => ('\x0c' :: p.1, p.2))
    else if e = 'n' then (parseStrCharsF fuel rest).map (fun p => ('\n' :: p.1, p.2))
    else if e = 'r' then (parseStrCharsF fuel rest).map (fun p => ('\r' :: p.1, p.2))
    else if e = 't' then (parseStrCharsF fuel rest).map (fun p => ('\t' :: p.1, p.2))
    else none
  | fuel + 1, c :: rest =>
    if c.toNat < 0x20 then none
    else (parseStrCharsF fuel rest).map (fun p => (c :: p.1, p.2))

/-- Body of a JSON string literal, with enough fuel for its input. -/
def parseStrChars (cs : List Char) : Option (List Char × List Char) :=
  parseStrCharsF (cs.length + 1) cs

/-- One or more decimal digits. -/
def digits1 (cs : List Char) : Option (List Char × List Char) :=
  let ds := cs.takeWhile Char.isDigit
  if ds = [] then none else some (ds, cs.drop ds.length)

/-- Integer part of a JSON number: a single 0, or a nonzero digit followed
by more digits. -/
def parseIntDigits : List Char → Option (List Char × List Char)
  | '0' :: rest => some (['0'], rest)
  | c :: rest =>
    if c.isDigit then
      let ds := rest.takeWhile Char.isDigit
      some (c :: ds, rest.drop ds.length)
    else none
  | [] => none

/-- Optional fraction part of a JSON number. -/
def parseFracDigits (cs : List Char) : Option (List Char × List Char) :=
  match cs with
  | '.' :: rest => (digits1 rest).map (fun p => ('.' :: p.1, p.2))
  | _ => some ([], cs)

/-- Optional exponent part of a JSON number. -/
def parseExpDigits (cs : List Char) : Option (List Char × List Char) :=
  match cs with
  | e :: rest =>
    if e = 'e' ∨ e = 'E' then
      match rest with
      | s :: rest2 =>
        if s = '+' ∨ s = '-' then (digits1 rest2).map (fun p => (e :: s :: p.1, p.2))
        else (digits1 rest).map (fun p => (e :: p.1, p.2))
      | [] => none
    else some ([], cs)
  | [] => some ([], cs)

/-- A JSON number lexeme, per the JSON grammar. -/
def parseNumber (cs : List Char) : Option (List Char × List Char) :=
  let (sign, cs1) := match cs with
    | '-' :: r => (['-'], r)
    | _ => (([] : List Char), cs)
  match parseIntDigits cs1 with
  | none => none
  | some (ip, r1) =>
    match parseFracDigits r1 with
    | none => none
    | some (fp, r2) =>
      match parseExpDigits r2 with
      | none => none
      | some (ep, r3) => some (sign ++ ip ++ fp ++ ep, r3)

/-- Parser mode: a single value, the items of an array after the first
opening bracket, or the members of an object after the opening brace. -/
inductive PMode where
  | val : PMode
  | arrItems (acc : List Json) : PMode
  | objItems (acc : List (String × Json)) : PMode

/-- Recursive JSON parser, fueled; the input to each mode is assumed to have
leading whitespace already skipped.  Mirrors Python `json.loads`, including
acceptance of the NaN and Infinity extensions. -/
def parseJ : Nat → PMode → List Char → Option (Json × List Char)
  | 0, _, _ => none
  | fuel + 1, .val, cs =>
    match cs with
    | 'n' :: 'u' :: 'l' :: 'l' :: rest => some (.null, rest)
    | 't' :: 'r' :: 'u' :: 'e' :: rest => some (.bool true, rest)
    | 'f' :: 'a' :: 'l' :: 's' :: 'e' :: rest => some (.bool false, rest)
    | 'N' :: 'a' :: 'N' :: rest => some (.num "NaN", rest)
    | 'I' :: 'n' :: 'f' :: 'i' :: 'n' :: 'i' :: 't' :: 'y' :: rest =>
      some (.num "Infinity", rest)
    | '-' :: 'I' :: 'n' :: 'f' :: 'i' :: 'n' :: 'i' :: 't' :: 'y' :: rest =>
      some (.num "-Infinity", rest)
    | '"' :: rest => (parseStrChars rest).map (fun p => (.str (String.mk p.1), p.2))
    | '[' :: rest =>
      match skipWs rest with
      | ']' :: r2 => some (.arr [], r2)
      | r1 => parseJ fuel (.arrItems []) r1
    | '\x7b' :: rest =>
      match skipWs rest with
      | '\x7d' :: r2 => some (.obj [], r2)
      | r1 => parseJ fuel (.objItems []) r1
    | _ => (parseNumber cs).map (fun p => (.num (String.mk p.1), p.2))
  | fuel + 1, .arrItems acc, cs =>
    match parseJ fuel .val cs with
    | none => none
    | some (v, r) =>
      match skipWs r with
      | ',' :: r2 => parseJ fuel (.arrItems (acc ++ [v])) (skipWs r2)
      | ']' :: r2 => some (.arr (acc ++ [v]), r2)
      | _ => none
  | fuel + 1, .objItems acc, cs =>
    match cs with
    | '"' :: rest =>
      match parseStrChars rest with
      | none => none
      | some (k, r1) =>
        match skipWs r1 with
        | ':' :: r2 =>
          match parseJ fuel .val (skipWs r2) with
          | none => none
          | some (v, r3) =>
            match skipWs r3 with
            | ',' :: r4 => parseJ fuel (.objItems (acc ++ [(String.mk k, v)])) (skipWs r4)
            | '\x7d' :: r4 => some (.obj (acc ++ [(String.mk k, v)]), r4)
            | _ => none
        | _ => none
    | _ => none

/-- Model of Python `json.loads` on a string: parse one value surrounded by
optional whitespace; anything else is a parse error (`none`). -/
def jsonLoads (s : String) : Option Json :=
  match parseJ (s.length + 2) .val (skipWs s.data) with
  | some (v, rest) => if skipWs rest = [] then some v else none
  | none => none

mutual

/-- Structural size of a JSON value, used as fuel for the serializers. -/
def jsonSize : Json → Nat
  | .null => 1
  | .bool _ => 1
  | .num _ => 1
  | .str _ => 1
  | .arr items => 1 + jsonSizeList items
  | .obj fields => 1 + jsonSizeFields fields

/-- Structural size of a list of JSON values. -/
def jsonSizeList : List Json → Nat
  | [] => 0
  | v :: rest => 1 + jsonSize v + jsonSizeList rest

/-- Structural size of the field list of a JSON object. -/
def jsonSizeFields : List (String × Json) → Nat
  | [] => 0
  | p :: rest => 1 + jsonSize p.2 + jsonSizeFields rest

end

/-- Lowercase hexadecimal digit for a value below 16. -/
def hexDigitChar (n : Nat) : Char :=
  if n < 10 then Char.ofNat (48 + n) else Char.ofNat (87 + (n - 10))

/-- A JSON `\uXXXX` escape for a code point below 0x10000. -/
def uEsc4 (n : Nat) : List Char :=
  ['\\', 'u', hexDigitChar (n / 4096 % 16), hexDigitChar (n / 256 % 16),
    hexDigitChar (n / 16 % 16), hexDigitChar (n % 16)]

/-- String-character escaping of Python `json.dumps` with its default
`ensure_ascii=True`: quote and backslash get short escapes, control
characters get short or `\uXXXX` escapes, every non-ASCII character is
`\uXXXX`-escaped (as a surrogate pair beyond the BMP). -/
def jsonEscChar (c : Char) : List Char :=
  if c = '"' then ['\\', '"']
  else if c = '\\' then ['\\', '\\']
  else if c = '\n' then ['\\', 'n']
  else if c = '\t' then ['\\', 't']
  else if c = '\r' then ['\\', 'r']
  else if c = '\x08' then ['\\', 'b']
  else if c = '\x0c' then ['\\', 'f']
  else if c.toNat < 0x20 then uEsc4 c.toNat
  else if c.toNat ≤ 0x7e then [c]
  else if c.toNat ≤ 0xffff then uEsc4 c.toNat
  else uEsc4 (0xd800 + (c.toNat - 0x10000) / 1024) ++ uEsc4 (0xdc00 + (c.toNat - 0x10000) % 1024)

/-- Model of Python `json.dumps` applied to a string value: the quoted,
escaped string literal.  Also used by `installation.py` (line 28): there
`json.dumps(command)` quotes the literal command for the outer shell. -/
def jsonQuote (s : String) : String :=
  "\"" ++ String.mk (s.data.map jsonEscChar).flatten ++ "\""

/-- Indentation of `2 * n` spaces used by `json.dumps(..., indent=2)`. -/
def indentSp (n : Nat) : String := String.mk (List.replicate (2 * n) ' ')

/-- Model of Python `json.dumps(v, indent=2)`, fueled on the structural size
of the value.  Empty arrays and objects print without a newline, exactly as
in Python; numbers are reproduced from their lexeme. -/
def jsonDumps2F : Nat → Nat → Json → String
  | 0, _, _ => ""
  | _ + 1, _, .null => "null"
  | _ + 1, _, .bool true => "true"
  | _ + 1, _, .bool false => "false"
  | _ + 1, _, .num lx => lx
  | _ + 1, _, .str s => jsonQuote s
  | _ + 1, _, .arr [] => "[]"
  | fuel + 1, lvl, .arr items =>
    "[\n" ++
      String.intercalate ",\n"
        (items.map (fun x => indentSp (lvl + 1) ++ jsonDumps2F fuel (lvl + 1) x)) ++
      "\n" ++ indentSp lvl ++ "]"
  | _ + 1, _, .obj [] => "\x7b\x7d"
  | fuel + 1, lvl, .obj fields =>
    "\x7b\n" ++
      String.intercalate ",\n"
        (fields.map (fun p =>
          indentSp (lvl + 1) ++ jsonQuote p.1 ++ ": " ++ jsonDumps2F fuel (lvl + 1) p.2)) ++
      "\n" ++ indentSp lvl ++ "\x7d"

/-- Model of `json.dumps(v, indent=2)` with enough fuel for its value. -/
def jsonDumps2 (v : Json) : String := jsonDumps2F (jsonSize v + 1) 0 v

/-- Whether a JSON number lexeme denotes zero (all mantissa digits 0). -/
def numLexemeIsZero (lx : String) : Bool :=
  if lx == "NaN" || lx == "Infinity" || lx == "-Infinity" then false
  else (lx.data.takeWhile (fun c => !(c == 'e' || c == 'E'))).all
    (fun c => !c.isDigit || c == '0')

/-- Python truthiness of a value decoded from JSON: None, False, zero, and
empty strings, lists and dicts are falsy. -/
def jsonTruthy : Json → Bool
  | .null => false
  | .bool b => b
  | .num lx => !numLexemeIsZero lx
  | .str s => !(s == "")
  | .arr l => !l.isEmpty
  | .obj fs => !fs.isEmpty

/-- Python truthiness of `dict.get`: a missing key yields None, falsy. -/
def pyTruthyOpt : Option Json → Bool
  | none => false
  | some v => jsonTruthy v

/-- Model of Python `repr` for values decoded from JSON, fueled on size.
Strings are shown in single quotes (the claims never render a string that
itself needs quoting inside repr). -/
def pyReprF : Nat → Json → String
  | 0, _ => ""
  | _ + 1, .null => "None"
  | _ + 1, .bool true => "True"
  | _ + 1, .bool false => "False"
  | _ + 1, .num lx => lx
  | _ + 1, .str s => "'" ++ s ++ "'"
  | fuel + 1, .arr items =>
    "[" ++ String.intercalate ", " (items.map (fun x => pyReprF fuel x)) ++ "]"
  | fuel + 1, .obj fields =>
    "\x7b" ++
      String.intercalate ", "
        (fields.map (fun p => "'" ++ p.1 ++ "': " ++ pyReprF fuel p.2)) ++
      "\x7d"

/-- Model of Python `str()` as used in the f-strings of `vortexai.py`:
strings pass through unquoted, other values render like repr. -/
def pyStr : Json → String
  | .str s => s
  | .null => "None"
  | .bool true => "True"
  | .bool false => "False"
  | .num lx => lx
  | v => pyReprF (jsonSize v + 1) v

/-- Python `dict` subscript / `dict.get` on a JSON object: with duplicate
keys the later value wins, as when `json.loads` builds the dict. -/
def objGet (fields : List (String × Json)) (k : String) : Option Json :=
  fields.foldl (fun acc p => if p.1 = k then some p.2 else acc) none

/- Model of the query tool `vortexai.py`.  The ambient world (environment
variable, fallback key file, input file, HTTP response) is a `QueryEnv`;
the effects of one run are a `RunResult`. -/

/-- The fixed fallback credential path of both tools. -/
def apikeyFilePath : String := "/usr/share/vortexai/apikey.txt"

/-- Ambient state consumed by one run of `vortexai.py`:
the `GEMINI_API_KEY` environment variable (`none` when unset), the content
of the fallback key file (`none` when absent), the `-r` input path and the
content found there (`none` when absent), the `-q` query string, and the
HTTP response (status and raw body text) the endpoint would return. -/
structure QueryEnv where
  geminiApiKeyEnv : Option String
  apikeyFileContent : Option String
  resultsPath : String
  resultsFileContent : Option String
  queryArg : String
  httpStatus : Nat
  httpBodyText : String

/-- Observable effects of one run of `vortexai.py` `main`: the lines
printed, whether the fallback key file was read, the credential the run
resolved, whether the HTTP POST was attempted, the request payload sent (if
any), the write to `<input>.log` (path and content, `none` when no write
happens), and how many vulnerability records were rendered. -/
structure RunResult where
  printed : List String
  fallbackRead : Bool
  apiKeyUsed : Option String
  httpRequested : Bool
  requestSent : Option Json
  logWrite : Option (String × String)
  renderedVulns : Nat

/- Printed messages of the credential loader (vortexai.py lines 44-64). -/

def msgCheckingFallback : String :=
  ansiYellow ++ "GEMINI_API_KEY environment variable not set. Checking '" ++
    apikeyFilePath ++ "'..." ++ ansiReset

def msgKeyFileEmpty : String :=
  ansiRed ++ "Error: API key file '" ++ apikeyFilePath ++ "' is empty." ++ ansiReset

def msgKeyLoaded : String :=
  ansiGreen ++ "API key successfully loaded from '" ++ apikeyFilePath ++ "'." ++ ansiReset

def msgKeyFileNotFound : String :=
  ansiRed ++ "Error: API key file not found at '" ++ apikeyFilePath ++ "'." ++ ansiReset

def msgPleaseSetKey : String :=
  ansiYellow ++ "Please set GEMINI_API_KEY environment variable OR create '" ++
    apikeyFilePath ++ "' with your API key." ++ ansiReset

/-- Fallback branch of the credential loader (vortexai.py lines 41-60):
read and strip the fallback file, reject an empty result.  Returns the
printed lines, whether the file was read, and the loaded key. -/
def loadKeyFallback (fileContent : Option String) : List String × Bool × Option String :=
  match fileContent with
  | some content =>
    let k := pyStrip content
    if k = "" then ([msgCheckingFallback, msgKeyFileEmpty], true, none)
    else ([msgCheckingFallback, msgKeyLoaded], true, some k)
  | none => ([msgCheckingFallback, msgKeyFileNotFound, msgPleaseSetKey], false, none)

/-- Credential loader (vortexai.py lines 39-65): environment variable
first; the fallback file is consulted only when the variable is unset or
empty (Python `if not api_key`). -/
def loadKey (envKey : Option String) (fileContent : Option String) :
    List String × Bool × Option String :=
  match envKey with
  | some k => if k = "" then loadKeyFallback fileContent else ([], false, some k)
  | none => loadKeyFallback fileContent

/- The fixed prompt template (vortexai.py lines 84-97). -/

def promptPre : String := "\nAnalyze the following content and "

def promptMid : String :=
  ".\nProvide your analysis in a structured JSON format. The JSON should be an array of vulnerability objects.\nEach vulnerability object must contain:\n- \"name\": A concise name for the vulnerability.\n- \"description\": A short, parsed explanation of the vulnerability.\n- \"metasploit_modules\": An array of suggested Metasploit module paths (e.g., \"exploit/windows/smb/ms17_010_eternalblue\"). If none, use an empty array.\n- \"exploit_links\": An array of relevant URLs for exploit details or PoCs. If none, use an empty array.\n- \"other_tools_and_formats\": An array of other relevant tools and their likely output formats (e.g., \"Nessus (HTML, XML, CSV)\", \"Nmap (XML, Nmap Script Output)\", \"Nikto (TXT, HTML)\"). If none, use an empty array.\n\n--- Content Start ---\n"

def promptPost : String := "\n--- Content End ---\n"

/-- The prompt f-string of vortexai.py lines 84-97: the query and the file
content are interpolated verbatim into the fixed template. -/
def buildPrompt (fileContent query : String) : String :=
  promptPre ++ query ++ promptMid ++ fileContent ++ promptPost

/-- The `generation_config` literal (vortexai.py lines 106-131). -/
def generationConfig : Json :=
  .obj [("responseMimeType", .str "application/json"),
        ("responseSchema", .obj
          [("type", .str "ARRAY"),
           ("items", .obj
             [("type", .str "OBJECT"),
              ("properties", .obj
                [("name", .obj [("type", .str "STRING")]),
                 ("description", .obj [("type", .str "STRING")]),
                 ("metasploit_modules", .obj
                   [("type", .str "ARRAY"), ("items", .obj [("type", .str "STRING")])]),
                 ("exploit_links", .obj
                   [("type", .str "ARRAY"), ("items", .obj [("type", .str "STRING")])]),
                 ("other_tools_and_formats", .obj
                   [("type", .str "ARRAY"), ("items", .obj [("type", .str "STRING")])])]),
              ("required", .arr
                [.str "name", .str "description", .str "metasploit_modules",
                 .str "exploit_links", .str "other_tools_and_formats"])])])]

/-- The request payload (vortexai.py lines 103-136): a single-turn chat
history containing the prompt, plus the generation config. -/
def payloadJson (fileContent query : String) : Json :=
  .obj [("contents", .arr
          [.obj [("role", .str "user"),
                 ("parts", .arr [.obj [("text", .str (buildPrompt fileContent query))]])]]),
        ("generationConfig", generationConfig)]

/- Envelope extraction (vortexai.py line 143), with the Python exception a
failed subscript raises. -/

/-- Exceptions raised by the response-handling code of vortexai.py and
dispatched to its `except` clauses. -/
inductive PyErr where
  | keyError (k : String)
  | idxError
  | typeError
  | attrError
deriving DecidableEq

/-- Python subscript `value[key]` with a string key: dicts look up (raising
KeyError when missing), any other value raises TypeError. -/
def getItemKey : Json → String → Except PyErr Json
  | .obj fs, k =>
    match objGet fs k with
    | some v => .ok v
    | none => .error (.keyError k)
  | _, _ => .error .typeError

/-- Python subscript `value[0]`: lists index (raising IndexError when
empty), strings index their first character, dicts raise KeyError (0 is not
a JSON-object key), other values raise TypeError. -/
def getItem0 : Json → Except PyErr Json
  | .arr (v :: _) => .ok v
  | .arr [] => .error .idxError
  | .str s =>
    match s.data with
    | [] => .error .idxError
    | c :: _ => .ok (.str (String.mk [c]))
  | .obj _ => .error (.keyError "0")
  | _ => .error .typeError

/-- The nested extraction
`response.json()["candidates"][0]["content"]["parts"][0]["text"]`
(vortexai.py line 143). -/
def extractText (body : Json) : Except PyErr Json := do
  let c ← getItemKey body "candidates"
  let c0 ← getItem0 c
  let ct ← getItemKey c0 "content"
  let ps ← getItemKey ct "parts"
  let p0 ← getItem0 ps
  getItemKey p0 "text"

/-- Whether `response.raise_for_status()` raises: requests raises HTTPError
exactly for status codes 400-599. -/
def httpRaises (status : Nat) : Bool := 400 ≤ status && status < 600

/-- Python iteration order of a JSON-decoded value, as `enumerate` sees it:
lists yield their items, strings their characters, dicts their keys; other
values are not iterable (TypeError). -/
def pyIterate : Json → Option (List Json)
  | .arr l => some l
  | .str s => some (s.data.map (fun c => .str (String.mk [c])))
  | .obj fs => some (fs.map (fun p => Json.str p.1))
  | _ => none

/- Printed messages of the request/response phase (vortexai.py 69-203). -/

/-- Input-file error (vortexai.py line 70; no trailing period in source). -/
def msgInputNotFound (path : String) : String :=
  ansiRed ++ "Error: File not found at '" ++ path ++ "'" ++ ansiReset

def msgSending : String :=
  ansiCyan ++ "Sending structured query to Gemini AI. Please wait..." ++ ansiReset

def msgSavedLine (logPath : String) : String :=
  ansiBlue ++ "Raw JSON response saved to: " ++ logPath ++ ansiReset

def analysisHeader : String :=
  "\n" ++ ansiGreen ++ "--- Gemini AI Vulnerability Analysis ---" ++ ansiReset

def msgNoVulns : String :=
  ansiYellow ++ "No vulnerabilities identified or structured response received." ++ ansiReset

def msgComplete : String :=
  "\n" ++ ansiGreen ++ "--- Analysis Complete ---" ++ ansiReset

/-- Rendering of `str(req_err)` for an HTTPError from
`raise_for_status()`; the reason phrase and URL of the real message are
produced inside the requests library and are abbreviated here. -/
def httpErrText (status : Nat) : String :=
  toString status ++ (if status < 500 then " Client Error" else " Server Error")

/-- Rendering of `str(req_err)` when `response.json()` fails to decode the
body (a `requests.exceptions.JSONDecodeError`, which is a
`RequestException` and is caught by the first handler); the message text is
produced inside the requests library and is abbreviated here. -/
def bodyDecodeErrText : String := "Expecting value: line 1 column 1 (char 0)"

/-- The two lines of the RequestException handler (vortexai.py 193-195). -/
def reqErrLines (errText : String) : List String :=
  [ansiRed ++ "\nError communicating with Gemini API: " ++ errText ++ ansiReset,
   ansiYellow ++ "Please check your internet connection or API key." ++ ansiReset]

/-- The two lines of the JSONDecodeError handler (vortexai.py 196-198);
`str(json_err)` is produced by the json library and is abbreviated here,
`response.text` is the raw body. -/
def jsonErrLines (rawBody : String) : List String :=
  [ansiRed ++ "\nError parsing API response JSON: Expecting value" ++ ansiReset,
   ansiYellow ++ "Raw response: " ++ rawBody ++ ansiReset]

/-- The two lines of the KeyError handler (vortexai.py 199-201):
`str(key_err)` is the repr of the missing key; the second line shows the
re-serialized response when the response object is truthy (status below
400) and the literal `No response` otherwise. -/
def keyErrLines (k : String) (body : Json) (status : Nat) : List String :=
  [ansiRed ++ "\nError: Missing expected key in API response - '" ++ k ++ "'" ++ ansiReset,
   ansiYellow ++ "Full API response: " ++
     (if status < 400 then jsonDumps2 body else "No response") ++ ansiReset]

/-- Rendering of `str(e)` in the generic Exception handler; the concrete
text is produced by the Python runtime and is abbreviated here. -/
def pyErrText : PyErr → String
  | .keyError k => "'" ++ k ++ "'"
  | .idxError => "list index out of range"
  | .typeError => "type error"
  | .attrError => "attribute error"

/-- The line of the generic Exception handler (vortexai.py 202-203). -/
def genericErrLine (e : PyErr) : String :=
  ansiRed ++ "\nAn unexpected error occurred: " ++ pyErrText e ++ ansiReset

/- Per-record rendering (vortexai.py 162-188). -/

def vulnHeaderLine (i : Nat) (nameVal : Option Json) : String :=
  "\n" ++ ansiBold ++ ansiGreen ++ "Vulnerability " ++ toString (i + 1) ++ ": " ++
    pyStr (nameVal.getD (.str "N/A")) ++ ansiReset

def descriptionLine (descVal : Option Json) : String :=
  ansiCyan ++ "  Description:" ++ ansiReset ++ " " ++ pyStr (descVal.getD (.str "N/A"))

def msHeaderLine : String := ansiMagenta ++ "  Metasploit Modules:" ++ ansiReset

def msNoneLine : String := ansiMagenta ++ "  Metasploit Modules:" ++ ansiReset ++ " None suggested."

def toolsHeaderLine : String := ansiBlue ++ "  Other Suggested Tools & Formats:" ++ ansiReset

def toolsNoneLine : String :=
  ansiBlue ++ "  Other Suggested Tools & Formats:" ++ ansiReset ++ " None suggested."

def linksHeaderLine : String := ansiYellow ++ "  Exploit Links:" ++ ansiReset

def linksNoneLine : String := ansiYellow ++ "  Exploit Links:" ++ ansiReset ++ " None provided."

/-- One list-valued field of a record (the pattern of vortexai.py 166-172):
when the field is truthy print the header then one bullet per item; when it
is absent or falsy print the placeholder line; a truthy non-iterable value
raises TypeError after the header is printed. -/
def listFieldLines (fv : Option Json) (headerLine noneLine : String) :
    List String × Option PyErr :=
  if pyTruthyOpt fv then
    match fv with
    | some v =>
      match pyIterate v with
      | some items => (headerLine :: items.map (fun it => "    - " ++ pyStr it), none)
      | none => ([headerLine], some .typeError)
    | none => ([noneLine], none)
  else ([noneLine], none)

/-- Rendering of one vulnerability record (vortexai.py 162-188): header and
description, then the metasploit, tools and links fields in source order.
A non-dict record raises AttributeError at the first `.get`. -/
def renderOne (i : Nat) (v : Json) : List String × Option PyErr :=
  match v with
  | .obj fs =>
    let base := [vulnHeaderLine i (objGet fs "name"),
                 descriptionLine (objGet fs "description")]
    let r1 := listFieldLines (objGet fs "metasploit_modules") msHeaderLine msNoneLine
    match r1.2 with
    | some er => (base ++ r1.1, some er)
    | none =>
      let r2 := listFieldLines (objGet fs "other_tools_and_formats") toolsHeaderLine toolsNoneLine
      match r2.2 with
      | some er => (base ++ r1.1 ++ r2.1, some er)
      | none =>
        let r3 := listFieldLines (objGet fs "exploit_links") linksHeaderLine linksNoneLine
        (base ++ r1.1 ++ r2.1 ++ r3.1, r3.2)
  | _ => ([], some .attrError)

/-- The `for i, vuln in enumerate(...)` loop (vortexai.py 162): renders
records in order until one raises; returns the printed lines, the number of
records fully rendered, and the raised exception if any. -/
def renderLoop : List Json → Nat → List String × Nat × Option PyErr
  | [], _ => ([], 0, none)
  | v :: rest, i =>
    let r := renderOne i v
    match r.2 with
    | some er => (r.1, 0, some er)
    | none =>
      let rec2 := renderLoop rest (i + 1)
      (r.1 ++ rec2.1, rec2.2.1 + 1, rec2.2.2)

/-- Everything `main` does after the credential is resolved
(vortexai.py 67-203): input file check and read, prompt and payload
construction, the HTTP POST, envelope extraction, JSON parse of the model
text, the log-file write, and rendering; every `except` clause of the
source is one error branch here. -/
def runAfterKey (e : QueryEnv) : List String × Bool × Option Json × Option (String × String) × Nat :=
  match e.resultsFileContent with
  | none => ([msgInputNotFound e.resultsPath], false, none, none, 0)
  | some fileContent =>
    let payload := payloadJson fileContent e.queryArg
    if httpRaises e.httpStatus then
      ([msgSending] ++ reqErrLines (httpErrText e.httpStatus), true, some payload, none, 0)
    else
      match jsonLoads e.httpBodyText with
      | none =>
        ([msgSending] ++ reqErrLines bodyDecodeErrText, true, some payload, none, 0)
      | some body =>
        match extractText body with
        | .error (.keyError k) =>
          ([msgSending] ++ keyErrLines k body e.httpStatus, true, some payload, none, 0)
        | .error er =>
          ([msgSending] ++ [genericErrLine er], true, some payload, none, 0)
        | .ok (.str t) =>
          match jsonLoads t with
          | none =>
            ([msgSending] ++ jsonErrLines e.httpBodyText, true, some payload, none, 0)
          | some resp =>
            let logPath := e.resultsPath ++ ".log"
            let logW := some (logPath, jsonDumps2 resp)
            if jsonTruthy resp then
              match pyIterate resp with
              | none =>
                ([msgSending, msgSavedLine logPath, analysisHeader,
                  genericErrLine .typeError], true, some payload, logW, 0)
              | some items =>
                let r := renderLoop items 0
                match r.2.2 with
                | some er =>
                  ([msgSending, msgSavedLine logPath, analysisHeader] ++ r.1 ++
                    [genericErrLine er], true, some payload, logW, r.2.1)
                | none =>
                  ([msgSending, msgSavedLine logPath, analysisHeader] ++ r.1 ++
                    [msgComplete], true, some payload, logW, r.2.1)
            else
              ([msgSending, msgSavedLine logPath, analysisHeader, msgNoVulns],
                true, some payload, logW, 0)
        | .ok _ =>
          ([msgSending] ++ [genericErrLine .typeError], true, some payload, none, 0)

/-- The whole of `main` (vortexai.py 18-203): resolve the credential, then
run the request/response pipeline.  The model assumes the log-file write
itself succeeds (its failure is a warning in the source and no claim
concerns it). -/
def runQuery (e : QueryEnv) : RunResult :=
  let lk := loadKey e.geminiApiKeyEnv e.apikeyFileContent
  match lk.2.2 with
  | none =>
    { printed := lk.1, fallbackRead := lk.2.1, apiKeyUsed := none,
      httpRequested := false, requestSent := none, logWrite := none, renderedVulns := 0 }
  | some key =>
    let ar := runAfterKey e
    { printed := lk.1 ++ ar.1, fallbackRead := lk.2.1, apiKeyUsed := some key,
      httpRequested := ar.2.1, requestSent := ar.2.2.1, logWrite := ar.2.2.2.1,
      renderedVulns := ar.2.2.2.2 }

/- Model of the setup tool `installation.py` (the Linux/macOS branch, which
is the one with the sudo wrapping and the shell-profile append). -/

/-- Ambient state consumed by one run of `installation.py`: whether the
`requests` package imports, whether `pip install` would succeed, what the
operator types at the key prompt, whether `~/.zshrc` exists, and the
success of the profile append, the `mkdir`, the key-file write and the
`chmod` (each an external effect). -/
structure InstallEnv where
  requestsInstalled : Bool
  pipInstallOk : Bool
  enteredKey : String
  zshrcExists : Bool
  profileWriteOk : Bool
  dirExists : Bool
  mkdirOk : Bool
  writeOk : Bool
  chmodOk : Bool

/-- The fixed fallback directory of `setup_api_key`. -/
def apikeyDir : String := "/usr/share/vortexai"

/-- The inner elevated command of installation.py line 128: the entered key
is interpolated unescaped between double quotes around an `echo` that
redirects into the fallback file. -/
def innerCommand (key : String) : String :=
  "echo \"" ++ key ++ "\" > " ++ apikeyFilePath

/-- The command string `run_command` actually hands to the shell when
`admin_needed` is true on Linux/macOS (installation.py line 28): the
literal command is quoted for the outer shell with `json.dumps`. -/
def fullCommand (command : String) : String :=
  "sudo sh -c " ++ jsonQuote command

/-- Model of `run_command` (installation.py 18-44): builds the full command
string, prints the privilege notice and the `Executing:` line, runs the
command (its success is the ambient `ok`; its output streams are ambient
and abbreviated here), and reports success as a boolean. -/
def runCommandModel (command : String) (adminNeeded ok : Bool) : Bool × List String :=
  let fc := if adminNeeded then fullCommand command else command
  let pre :=
    (if adminNeeded then
      [ansiYellow ++ "Administrative privileges may be required for: " ++ fc ++ ansiReset]
     else []) ++
    [ansiBlue ++ "Executing: " ++ fc ++ ansiReset]
  if ok then (true, pre ++ [ansiGreen ++ "Output:\n" ++ ansiReset])
  else (false, pre ++ [ansiRed ++ "Command failed with error code 1:" ++ ansiReset,
                       ansiRed ++ ansiReset])

/-- Model of `install_dependencies` (installation.py 46-61) for the single
required package `requests`. -/
def installDependencies (e : InstallEnv) : Bool × List String :=
  let hdr := "\n" ++ ansiCyan ++ "--- Installing Python Dependencies ---" ++ ansiReset
  if e.requestsInstalled then
    (true, [hdr, ansiGreen ++ "'requests' is already installed." ++ ansiReset])
  else
    let notFound := ansiYellow ++ "'requests' not found. Installing now..." ++ ansiReset
    let r := runCommandModel "python3 -m pip install requests" false e.pipInstallOk
    if r.1 then
      (true, [hdr, notFound] ++ r.2 ++
        [ansiGreen ++ "'requests' installed successfully!" ++ ansiReset])
    else
      (false, [hdr, notFound] ++ r.2 ++
        [ansiRed ++ "Failed to install 'requests'. Please try installing it manually: 'pip install requests'" ++ ansiReset])

/-- The shell profile chosen by `setup_api_key` (installation.py 77-79). -/
def shellProfile (zshrcExists : Bool) : String :=
  if zshrcExists then "~/.zshrc" else "~/.bashrc"

/-- Printed lines of the profile-append step (installation.py 81-91); the
exception text of a failed write is ambient and abbreviated here. -/
def profileStepLines (profile key : String) (ok : Bool) : List String :=
  ["\n" ++ ansiCyan ++ "Attempting to set GEMINI_API_KEY persistently in " ++
     profile ++ "..." ++ ansiReset] ++
  (if ok then
    [ansiGreen ++ "API key added to " ++ profile ++ "." ++ ansiReset,
     ansiYellow ++ "Please run '" ++ ansiBold ++ "source " ++ profile ++ ansiReset ++
       ansiYellow ++ "' or restart your terminal for changes to take effect." ++ ansiReset]
   else
    [ansiRed ++ "Failed to write to " ++ profile ++ ": Permission denied" ++ ansiReset,
     ansiYellow ++ "You might need to set the environment variable manually for each session:" ++ ansiReset,
     ansiYellow ++ "export GEMINI_API_KEY='" ++ key ++ "'" ++ ansiReset])

/-- Model of `setup_api_key` (installation.py 63-141), Linux/macOS branch:
prompt for the key and strip it, reject an empty key; append the export
line to the shell profile (failure only reported); create the fallback
directory with an elevated `mkdir -p` when absent (failure returns false);
write the key with the elevated, unescaped `echo` redirection (failure
returns false); relax the permissions with an elevated `chmod 644`
(failure only reported).  Returns the reported boolean and the printed
lines. -/
def setupApiKey (e : InstallEnv) : Bool × List String :=
  let hdr := ["\n" ++ ansiCyan ++ "--- Setting up Gemini API Key ---" ++ ansiReset,
    "You can get your Gemini API key from: " ++ ansiUnderline ++
      "https://aistudio.google.com/" ++ ansiReset,
    "Please log in with your Google account and follow the prompts to create a new API key.",
    ansiBold ++ "Paste your Gemini API key here: " ++ ansiReset]
  let key := pyStrip e.enteredKey
  if key = "" then
    (false, hdr ++ [ansiRed ++ "API key cannot be empty. Please restart the script and provide a key." ++ ansiReset])
  else
    let p1 := hdr ++ profileStepLines (shellProfile e.zshrcExists) key e.profileWriteOk
    let p2 := p1 ++ ["\n" ++ ansiCyan ++ "Attempting to save API key to fallback file: " ++
      apikeyFilePath ++ ansiReset]
    let dirStep :=
      if e.dirExists then (true, ([] : List String))
      else
        let r := runCommandModel ("mkdir -p " ++ apikeyDir) true e.mkdirOk
        (r.1, [ansiYellow ++ "Creating directory '" ++ apikeyDir ++ "'..." ++ ansiReset] ++ r.2)
    if dirStep.1 then
      let p3 := p2 ++ dirStep.2
      let w := runCommandModel (innerCommand key) true e.writeOk
      if w.1 then
        let p4 := p3 ++ w.2 ++
          [ansiGreen ++ "API key successfully saved to '" ++ apikeyFilePath ++ "'." ++ ansiReset]
        let c := runCommandModel ("chmod 644 " ++ apikeyFilePath) true e.chmodOk
        if c.1 then
          (true, p4 ++ c.2 ++
            [ansiGreen ++ "Permissions for '" ++ apikeyFilePath ++
              "' set to 644 (owner read/write, others read)." ++ ansiReset])
        else
          (true, p4 ++ c.2 ++
            [ansiYellow ++ "Warning: Failed to set permissions for '" ++ apikeyFilePath ++
              "'. Please set them manually to 644 for security." ++ ansiReset])
      else
        (false, p3 ++ w.2 ++
          [ansiRed ++ "Failed to save API key to '" ++ apikeyFilePath ++ "'." ++ ansiReset,
           ansiYellow ++ "VortexAI will rely solely on the environment variable if this failed." ++ ansiReset])
    else
      (false, p2 ++ dirStep.2 ++
        [ansiRed ++ "Failed to create directory '" ++ apikeyDir ++
          "'. Please create it manually with sufficient permissions." ++ ansiReset])

/-- Effects of one run of `main_installation`: the printed lines and how
the process exits (`some code` for `sys.exit(code)`, `none` for falling off
the end, which is exit status 0). -/
structure InstallRunResult where
  printed : List String
  exitCode : Option Nat

/-- The warning printed when `setup_api_key` reports failure
(installation.py line 154). -/
def apiKeyWarnLine : String :=
  "\n" ++ ansiRed ++ "API Key setup encountered issues. VortexAI may not function correctly without a valid API key." ++ ansiReset

/-- Model of `main_installation` (installation.py 144-159): dependency
failure is fatal (`sys.exit(1)`); credential-setup failure only prints the
warning and the run ends normally. -/
def mainInstallation (e : InstallEnv) : InstallRunResult :=
  let hdr := ansiBold ++ ansiMagenta ++ "--- VortexAI Installation Script ---" ++ ansiReset
  let d := installDependencies e
  if d.1 then
    let k := setupApiKey e
    if k.1 then
      { printed := [hdr] ++ d.2 ++ k.2 ++
          ["\n" ++ ansiBold ++ ansiGreen ++ "VortexAI installation complete!" ++ ansiReset,
           ansiGreen ++ "You can now run the main tool using: python3 vortexai.py -r <file> -q \"<query>\"" ++ ansiReset,
           ansiYellow ++ "Remember to restart your terminal if you set the API key persistently." ++ ansiReset],
        exitCode := none }
    else
      { printed := [hdr] ++ d.2 ++ k.2 ++ [apiKeyWarnLine], exitCode := none }
  else
    { printed := [hdr] ++ d.2 ++
        ["\n" ++ ansiRed ++ "Installation failed due to dependency issues. Please resolve them and try again." ++ ansiReset],
      exitCode := some 1 }

/- A lexer for the fragment of POSIX shell syntax the constructed commands
can reach, used to state what command structure the shell would execute.
Parameter expansion and command substitution are not modelled: a dollar
sign and a backquote are treated as ordinary characters (the counterexample
below does not rely on them, and the safe-character class of the amended
claim excludes them). -/

/-- Shell tokens: words, the command separators (`;` and newline, both
lexed as a separator), and output redirection. -/
inductive ShTok where
  | word (s : String)
  | semi
  | redirOut
deriving DecidableEq

/-- Lexer mode: outside quotes, inside double quotes, inside single
quotes. -/
inductive LexMode where
  | normal
  | inDq
  | inSq
deriving DecidableEq

/-- Flush the current word, if one is open, in front of the given
tokens. -/
def emitTok (cur : Option (List Char)) (ts : List ShTok) : List ShTok :=
  match cur with
  | none => ts
  | some w => ShTok.word (String.mk w) :: ts

/-- The lexer core: one pass over the characters, tracking the quote mode
and the currently accumulating word (`some` as soon as any quote or
character has contributed, so that an empty quoted string still yields an
empty word).  Unterminated quotes and a trailing backslash lex to `none`. -/
def shLexCore : List Char → LexMode → Option (List Char) → Option (List ShTok)
  | [], .normal, cur => some (emitTok cur [])
  | [], .inDq, _ => none
  | [], .inSq, _ => none
  | c :: rest, .inSq, cur =>
    if c = '\'' then shLexCore rest .normal (some (cur.getD []))
    else shLexCore rest .inSq (some (cur.getD [] ++ [c]))
  | c :: rest, .inDq, cur =>
    if c = '"' then shLexCore rest .normal (some (cur.getD []))
    else if c = '\\' then
      match rest with
      | [] => none
      | d :: r2 =>
        if d = '"' ∨ d = '\\' ∨ d = '$' ∨ d = Char.ofNat 96 then
          shLexCore r2 .inDq (some (cur.getD [] ++ [d]))
        else if d = '\n' then shLexCore r2 .inDq cur
        else shLexCore r2 .inDq (some (cur.getD [] ++ ['\\', d]))
    else shLexCore rest .inDq (some (cur.getD [] ++ [c]))
  | c :: rest, .normal, cur =>
    if c = ' ' ∨ c = '\t' then (shLexCore rest .normal none).map (emitTok cur)
    else if c = '\n' ∨ c = ';' then
      (shLexCore rest .normal none).map (fun ts => emitTok cur (ShTok.semi :: ts))
    else if c = '>' then
      (shLexCore rest .normal none).map (fun ts => emitTok cur (ShTok.redirOut :: ts))
    else if c = '"' then shLexCore rest .inDq (some (cur.getD []))
    else if c = '\'' then shLexCore rest .inSq (some (cur.getD []))
    else if c = '\\' then
      match rest with
      | [] => none
      | d :: r2 =>
        if d = '\n' then shLexCore r2 .normal cur
        else shLexCore r2 .normal (some (cur.getD [] ++ [d]))
    else shLexCore rest .normal (some (cur.getD [] ++ [c]))

/-- Lex a whole shell command string into tokens. -/
def shLex (s : String) : Option (List ShTok) := shLexCore s.data .normal none

/-- The property claimed of the constructed elevated write command, for a
credential string already stripped by the prompt: the outer shell sees
exactly `sudo sh -c <inner>` with the inner command as one quoted word, and
the inner shell then sees exactly one `echo` of the key, as one word,
redirected into the fallback file, so the key cannot change the command
structure. -/
def commandStructurePreserved (key : String) : Prop :=
  shLex (fullCommand (innerCommand key)) =
    some [ShTok.word "sudo", ShTok.word "sh", ShTok.word "-c",
          ShTok.word (innerCommand key)] ∧
  shLex (innerCommand key) =
    some [ShTok.word "echo", ShTok.word key, ShTok.redirOut, ShTok.word apikeyFilePath]

instance (key : String) : Decidable (commandStructurePreserved key) := by
  unfold commandStructurePreserved; infer_instance

/- Helper lemmas. -/

/-- Data of an append is the append of the data. -/
theorem strDataAppend (a b : String) : (a ++ b).data = a.data ++ b.data := rfl

/-- A substring of `a` is a substring of `a ++ b`. -/
theorem strHasSubAppendLeft (n a b : String) (h : strHasSub n a) : strHasSub n (a ++ b) := by
  unfold strHasSub at *
  rw [strDataAppend]
  obtain ⟨s, t, hst⟩ := h
  exact ⟨s, t ++ b.data, by rw [← hst]; simp⟩

/-- A substring of `b` is a substring of `a ++ b`. -/
theorem strHasSubAppendRight (n a b : String) (h : strHasSub n b) : strHasSub n (a ++ b) := by
  unfold strHasSub at *
  rw [strDataAppend]
  obtain ⟨s, t, hst⟩ := h
  exact ⟨a.data ++ s, t, by rw [← hst]; simp⟩

/-- Dropping while a predicate holds skips a block on which it holds
everywhere. -/
theorem dropWhileAllAppend (p : Char → Bool) :
    ∀ (l1 l2 : List Char), (∀ c ∈ l1, p c = true) →
      (l1 ++ l2).dropWhile p = l2.dropWhile p
  | [], _, _ => rfl
  | c :: l1, l2, h => by
    have hc : p c = true := h c (by simp)
    simp only [List.cons_append, List.dropWhile_cons, hc, if_true]
    exact dropWhileAllAppend p l1 l2 (fun d hd => h d (by simp [hd]))

/-- Claim C3 (confirmed).  For every input-file content string T and every
instruction string Q, the payload built by the query tool carries, at the
path contents-0-parts-0-text, exactly the fixed prompt template with Q and
T interpolated verbatim, and that template contains T and Q as contiguous
substrings: no escaping, truncation or size limit is applied. -/
theorem claimC3 (T Q : String) :
    ((do
      let c ← getItemKey (payloadJson T Q) "contents"
      let c0 ← getItem0 c
      let ps ← getItemKey c0 "parts"
      let p0 ← getItem0 ps
      getItemKey p0 "text") = Except.ok (Json.str (buildPrompt T Q))) ∧
    strHasSub T (buildPrompt T Q) ∧ strHasSub Q (buildPrompt T Q) := by
  refine ⟨rfl, ?_, ?_⟩
  · exact ⟨(promptPre ++ Q ++ promptMid).data, promptPost.data, by
      simp [buildPrompt, strDataAppend, List.append_assoc]⟩
  · exact ⟨promptPre.data, (promptMid ++ T ++ promptPost).data, by
      simp [buildPrompt, strDataAppend, List.append_assoc]⟩

/-- Resolving the credential when the environment variable holds a
non-empty string: nothing is printed, the fallback is not read. -/
theorem loadKeyEnvSome (k : String) (fc : Option String) (hk : k ≠ "") :
    loadKey (some k) fc = ([], false, some k) := by
  simp [loadKey, hk]

/-- Claim C4 (confirmed).  Whenever the credential environment variable is
set to a non-empty string, the run never reads the fallback credential
file, and the credential the run uses is exactly the environment value. -/
theorem claimC4 (e : QueryEnv) (k : String)
    (henv : e.geminiApiKeyEnv = some k) (hk : k ≠ "") :
    (runQuery e).fallbackRead = false ∧ (runQuery e).apiKeyUsed = some k := by
  unfold runQuery
  rw [henv, loadKeyEnvSome k e.apikeyFileContent hk]
  exact ⟨rfl, rfl⟩

/-- Concrete environment witnessing claim C4. -/
def c4Env : QueryEnv :=
  { geminiApiKeyEnv := some "WITKEY", apikeyFileContent := some "other",
    resultsPath := "r.txt", resultsFileContent := none, queryArg := "q",
    httpStatus := 200, httpBodyText := "" }

theorem claimC4_witness :
    (runQuery c4Env).fallbackRead = false ∧ (runQuery c4Env).apiKeyUsed = some "WITKEY" :=
  claimC4 c4Env "WITKEY" rfl (by decide)

/-- Claim C6 (confirmed).  When the environment variable is unset or empty
and the fallback file is absent, the HTTP POST is never attempted and the
run prints an error message naming both the environment variable and the
fallback file path. -/
theorem claimC6 (e : QueryEnv)
    (henv : e.geminiApiKeyEnv = none ∨ e.geminiApiKeyEnv = some "")
    (hfile : e.apikeyFileContent = none) :
    (runQuery e).httpRequested = false ∧
    ∃ m ∈ (runQuery e).printed, strHasSub "GEMINI_API_KEY" m ∧ strHasSub apikeyFilePath m := by
  have hlk : loadKey e.geminiApiKeyEnv e.apikeyFileContent =
      ([msgCheckingFallback, msgKeyFileNotFound, msgPleaseSetKey], false, none) := by
    rcases henv with h | h <;> simp [loadKey, loadKeyFallback, h, hfile]
  unfold runQuery
  rw [hlk]
  exact ⟨rfl, msgPleaseSetKey, by simp, by decide, by decide⟩

/-- Concrete environment witnessing claim C6. -/
def c6Env : QueryEnv :=
  { geminiApiKeyEnv := none, apikeyFileContent := none,
    resultsPath := "r.txt", resultsFileContent := some "data", queryArg := "q",
    httpStatus := 200, httpBodyText := "" }

theorem claimC6_witness :
    (runQuery c6Env).httpRequested = false ∧
    ∃ m ∈ (runQuery c6Env).printed, strHasSub "GEMINI_API_KEY" m ∧ strHasSub apikeyFilePath m :=
  claimC6 c6Env (Or.inl rfl) rfl

/-- Claim C8 (confirmed).  Both steps of the setup tool report success as a
boolean; the caller exits with code 1 when dependency installation fails,
while a credential-setup failure only prints the warning line and the run
ends normally (no error exit code). -/
theorem claimC8 (e : InstallEnv) :
    ((installDependencies e).1 = false → (mainInstallation e).exitCode = some 1) ∧
    ((installDependencies e).1 = true → (setupApiKey e).1 = false →
      (mainInstallation e).exitCode = none ∧ apiKeyWarnLine ∈ (mainInstallation e).printed) := by
  constructor
  · intro h
    simp [mainInstallation, h]
  · intro h1 h2
    simp [mainInstallation, h1, h2]

/-- Environment in which dependency installation fails. -/
def c8EnvDepFail : InstallEnv :=
  { requestsInstalled := false, pipInstallOk := false, enteredKey := "k",
    zshrcExists := false, profileWriteOk := true, dirExists := true,
    mkdirOk := true, writeOk := true, chmodOk := true }

/-- Environment in which dependencies are fine but the entered key is
empty, so credential setup fails. -/
def c8EnvKeyFail : InstallEnv :=
  { requestsInstalled := true, pipInstallOk := true, enteredKey := "",
    zshrcExists := false, profileWriteOk := true, dirExists := true,
    mkdirOk := true, writeOk := true, chmodOk := true }

theorem claimC8_witness :
    (mainInstallation c8EnvDepFail).exitCode = some 1 ∧
    ((mainInstallation c8EnvKeyFail).exitCode = none ∧
      apiKeyWarnLine ∈ (mainInstallation c8EnvKeyFail).printed) :=
  ⟨(claimC8 c8EnvDepFail).1 (by decide),
   (claimC8 c8EnvKeyFail).2 (by decide) (by decide)⟩

/-- The embedded model text of claim C2: the one-record JSON array with
empty metasploit and links fields and a single Nmap tool entry. -/
def c2Text : String :=
  "[\x7b\"name\":\"X\",\"description\":\"Y\",\"metasploit_modules\":[],\"exploit_links\":[],\"other_tools_and_formats\":[\"Nmap\"]\x7d]"

/-- The mocked successful response body of claim C2: the usual envelope
with `c2Text` as the embedded model text (quoted as JSON embeds it). -/
def c2Body : String :=
  "\x7b\"candidates\": [\x7b\"content\": \x7b\"parts\": [\x7b\"text\": " ++
    jsonQuote c2Text ++ "\x7d]\x7d\x7d]\x7d"

/-- The run environment of claim C2: credential present, readable input
file at scan.txt, and the mocked 200 response. -/
def c2Env : QueryEnv :=
  { geminiApiKeyEnv := some "testkey", apikeyFileContent := none,
    resultsPath := "scan.txt", resultsFileContent := some "scan data",
    queryArg := "find vulnerabilities", httpStatus := 200, httpBodyText := c2Body }

/-- The log content claim C2 expects: `c2Text` re-serialized by
`json.dumps(..., indent=2)`. -/
def c2ExpectedLog : String :=
  "[\n  \x7b\n    \"name\": \"X\",\n    \"description\": \"Y\",\n    \"metasploit_modules\": [],\n    \"exploit_links\": [],\n    \"other_tools_and_formats\": [\n      \"Nmap\"\n    ]\n  \x7d\n]"

/-- Claim C2 (confirmed).  On the mocked successful response embedding
`c2Text`, the run writes the re-serialized, 2-space-indented array to
scan.txt.log, and the terminal rendering shows the placeholder line
ending in `None suggested.` for the empty metasploit field, the line
ending in `None provided.` for the empty links field, and the bullet line
for Nmap under the tools header. -/
theorem claimC2 :
    (runQuery c2Env).logWrite = some ("scan.txt.log", c2ExpectedLog) ∧
    (ansiMagenta ++ "  Metasploit Modules:" ++ ansiReset ++ " None suggested.")
      ∈ (runQuery c2Env).printed ∧
    (ansiYellow ++ "  Exploit Links:" ++ ansiReset ++ " None provided.")
      ∈ (runQuery c2Env).printed ∧
    ("    - Nmap") ∈ (runQuery c2Env).printed ∧
    (runQuery c2Env).renderedVulns = 1 := by
  refine ⟨rfl, by decide, by decide, by decide, rfl⟩

/-- Dropping whitespace does nothing to a list headed by the characters of
ABC123 (the first character is not whitespace). -/
theorem dropWhileAbcHead (l : List Char) :
    (['A', 'B', 'C', '1', '2', '3'] ++ l).dropWhile isPySpace =
      ['A', 'B', 'C', '1', '2', '3'] ++ l := rfl

/-- Python strip of ABC123 surrounded by whitespace yields ABC123. -/
theorem pyStripWsAbc (ws1 ws2 : String)
    (h1 : ∀ c ∈ ws1.data, isPySpace c = true)
    (h2 : ∀ c ∈ ws2.data, isPySpace c = true) :
    pyStrip (ws1 ++ "ABC123" ++ ws2) = "ABC123" := by
  unfold pyStrip
  have hd : (ws1 ++ "ABC123" ++ ws2).data =
      ws1.data ++ (['A', 'B', 'C', '1', '2', '3'] ++ ws2.data) := by
    simp [strDataAppend, List.append_assoc]
  rw [hd]
  rw [dropWhileAllAppend _ _ _ h1]
  rw [dropWhileAbcHead]
  rw [List.reverse_append]
  rw [dropWhileAllAppend _ _ _ (fun c hc => h2 c (List.mem_reverse.mp hc))]
  rfl

/-- Claim C5 (confirmed).  When the environment variable is unset or
empty and the fallback file holds ABC123 with any surrounding whitespace,
the credential the run uses is exactly ABC123. -/
theorem claimC5 (e : QueryEnv) (ws1 ws2 : String)
    (henv : e.geminiApiKeyEnv = none ∨ e.geminiApiKeyEnv = some "")
    (hfile : e.apikeyFileContent = some (ws1 ++ "ABC123" ++ ws2))
    (h1 : ∀ c ∈ ws1.data, isPySpace c = true)
    (h2 : ∀ c ∈ ws2.data, isPySpace c = true) :
    (runQuery e).apiKeyUsed = some "ABC123" ∧ (runQuery e).fallbackRead = true := by
  have hstrip := pyStripWsAbc ws1 ws2 h1 h2
  have hlk : loadKey e.geminiApiKeyEnv e.apikeyFileContent =
      ([msgCheckingFallback, msgKeyLoaded], true, some "ABC123") := by
    rcases henv with h | h <;>
      simp [loadKey, loadKeyFallback, h, hfile, hstrip]
  unfold runQuery
  rw [hlk]
  exact ⟨rfl, rfl⟩

/-- Concrete environment witnessing claim C5. -/
def c5Env : QueryEnv :=
  { geminiApiKeyEnv := none, apikeyFileContent := some ("  \n" ++ "ABC123" ++ "\t \n"),
    resultsPath := "r.txt", resultsFileContent := none, queryArg := "q",
    httpStatus := 200, httpBodyText := "" }

theorem claimC5_witness :
    (runQuery c5Env).apiKeyUsed = some "ABC123" ∧ (runQuery c5Env).fallbackRead = true :=
  claimC5 c5Env "  \n" "\t \n" (Or.inl rfl) rfl (by decide) (by decide)

/-- Claim C7 (confirmed).  In any run that reaches the response and whose
extracted model text is not valid JSON, the run prints the JSON-parsing
error and writes no log file. -/
theorem claimC7 (e : QueryEnv) (p1 : List String) (fb : Bool) (key fc t : String)
    (body : Json)
    (hlk : loadKey e.geminiApiKeyEnv e.apikeyFileContent = (p1, fb, some key))
    (hfc : e.resultsFileContent = some fc)
    (hst : httpRaises e.httpStatus = false)
    (hbody : jsonLoads e.httpBodyText = some body)
    (hex : extractText body = Except.ok (Json.str t))
    (hparse : jsonLoads t = none) :
    (runQuery e).logWrite = none ∧
    ∃ m ∈ (runQuery e).printed, strHasSub "Error parsing API response JSON" m := by
  unfold runQuery runAfterKey
  simp only [hlk, hfc, hst, hbody, hex, hparse, Bool.false_eq_true, if_false]
  refine ⟨by trivial,
    ansiRed ++ "\nError parsing API response JSON: Expecting value" ++ ansiReset,
    ?_, ?_⟩
  · simp [jsonErrLines]
  · apply strHasSubAppendLeft
    apply strHasSubAppendRight
    decide

/-- Concrete response body whose embedded text is not valid JSON. -/
def c7Body : Json :=
  .obj [("candidates", .arr
    [.obj [("content", .obj
      [("parts", .arr [.obj [("text", .str "oops")]])])]])]

/-- Concrete environment witnessing claim C7: the embedded text `oops` is
not JSON. -/
def c7Env : QueryEnv :=
  { geminiApiKeyEnv := some "k", apikeyFileContent := none,
    resultsPath := "r.txt", resultsFileContent := some "data", queryArg := "q",
    httpStatus := 200,
    httpBodyText :=
      "\x7b\"candidates\": [\x7b\"content\": \x7b\"parts\": [\x7b\"text\": \"oops\"\x7d]\x7d\x7d]\x7d" }

theorem claimC7_witness :
    (runQuery c7Env).logWrite = none ∧
    ∃ m ∈ (runQuery c7Env).printed, strHasSub "Error parsing API response JSON" m :=
  claimC7 c7Env [] false "k" "data" "oops" c7Body rfl rfl rfl rfl rfl rfl

/-- The boolean `setup_api_key` reports, as a function of the inputs it
depends on: the stripped key must be non-empty, the fallback directory
must exist or be created, and the elevated write must succeed; the
profile-append and chmod outcomes never matter. -/
theorem setupApiKeyBool (e : InstallEnv) :
    (setupApiKey e).1 =
      (!(pyStrip e.enteredKey == "") && ((e.dirExists || e.mkdirOk) && e.writeOk)) := by
  by_cases hk : pyStrip e.enteredKey = ""
  · simp [setupApiKey, hk]
  · cases hd : e.dirExists <;> cases hm : e.mkdirOk <;>
      cases hw : e.writeOk <;> cases hc : e.chmodOk <;>
      simp [setupApiKey, hk, hd, hm, hw, hc, runCommandModel]

/-- Claim C9 (confirmed).  `setup_api_key` reports failure exactly when
the entered key strips to empty, the fallback directory neither exists nor
can be created, or the elevated credential write fails; the outcomes of
the profile append and of the final chmod never change the reported
boolean (in particular it still reports success when only the chmod
fails). -/
theorem claimC9 (e : InstallEnv) :
    ((setupApiKey e).1 = false ↔
      (pyStrip e.enteredKey = "" ∨ (e.dirExists = false ∧ e.mkdirOk = false) ∨
        e.writeOk = false)) ∧
    (∀ p1 p2 c1 c2 : Bool,
      (setupApiKey { e with profileWriteOk := p1, chmodOk := c1 }).1 =
      (setupApiKey { e with profileWriteOk := p2, chmodOk := c2 }).1) := by
  constructor
  · rw [setupApiKeyBool]
    by_cases hk : pyStrip e.enteredKey = "" <;>
      cases hd : e.dirExists <;> cases hm : e.mkdirOk <;> cases hw : e.writeOk <;>
        simp [hk, hd, hm, hw]
  · intro p1 p2 c1 c2
    rw [setupApiKeyBool, setupApiKeyBool]

/-- The error outcome claim C10 asserts for its trigger: no log write, no
vulnerability record rendered, and an error message printed. -/
def c10ErrorOutcome (e : QueryEnv) : Prop :=
  (runQuery e).logWrite = none ∧ (runQuery e).renderedVulns = 0 ∧
  ∃ m ∈ (runQuery e).printed, strHasSub "Error" m ∨ strHasSub "error" m

/-- The trigger of claim C10 as stated: the POST returned a non-2xx
status, or the envelope lacks one of the expected nested keys. -/
def c10Trigger (e : QueryEnv) : Prop :=
  ¬(200 ≤ e.httpStatus ∧ e.httpStatus ≤ 299) ∨
  ∃ body er, jsonLoads e.httpBodyText = some body ∧ extractText body = Except.error er

/-- The environment refuting claim C10 as stated: a 304 response (not 2xx,
but `raise_for_status` raises only for 400-599) carrying a complete
envelope whose embedded text is the empty array. -/
def c10CEnv : QueryEnv :=
  { geminiApiKeyEnv := some "k", apikeyFileContent := none,
    resultsPath := "scan.txt", resultsFileContent := some "data", queryArg := "q",
    httpStatus := 304,
    httpBodyText :=
      "\x7b\"candidates\": [\x7b\"content\": \x7b\"parts\": [\x7b\"text\": \"[]\"\x7d]\x7d\x7d]\x7d" }

/-- Claim C10 as stated is false: on the 304 response the trigger holds,
yet the run writes the log file (with the empty array), so the error
outcome fails. -/
theorem claimC10_counterexample :
    c10Trigger c10CEnv ∧ ¬ c10ErrorOutcome c10CEnv ∧
    (runQuery c10CEnv).logWrite = some ("scan.txt.log", "[]") := by
  refine ⟨Or.inl (by decide), fun h => ?_, rfl⟩
  have h1 := h.1
  rw [show (runQuery c10CEnv).logWrite = some ("scan.txt.log", "[]") from rfl] at h1
  exact Option.noConfusion h1

/-- Claim C10 (amended).  For every run that reaches the POST, if the
response status is in 400-599 (the statuses `raise_for_status` treats as
errors) or the response is accepted but its envelope lacks one of the
expected nested keys, then the run reports an error, writes no log file,
and renders no vulnerability records. -/
theorem claimC10_amended (e : QueryEnv) (p1 : List String) (fb : Bool) (key fc : String)
    (hlk : loadKey e.geminiApiKeyEnv e.apikeyFileContent = (p1, fb, some key))
    (hfc : e.resultsFileContent = some fc)
    (htrig : (400 ≤ e.httpStatus ∧ e.httpStatus < 600) ∨
      (httpRaises e.httpStatus = false ∧
        ∃ body er, jsonLoads e.httpBodyText = some body ∧
          extractText body = Except.error er)) :
    c10ErrorOutcome e := by
  unfold c10ErrorOutcome
  rcases htrig with hst | ⟨hst, body, er, hbody, hex⟩
  · have hr : httpRaises e.httpStatus = true := by
      unfold httpRaises
      simp only [Bool.and_eq_true, decide_eq_true_eq]
      omega
    unfold runQuery runAfterKey
    simp only [hlk, hfc, hr, if_true]
    refine ⟨by trivial, by trivial,
      ansiRed ++ "\nError communicating with Gemini API: " ++ httpErrText e.httpStatus ++
        ansiReset, by simp [reqErrLines], ?_⟩
    left
    apply strHasSubAppendLeft
    apply strHasSubAppendLeft
    apply strHasSubAppendRight
    decide
  · cases er with
    | keyError k =>
      unfold runQuery runAfterKey
      simp only [hlk, hfc, hst, hbody, hex, Bool.false_eq_true, if_false]
      refine ⟨by trivial, by trivial,
        ansiRed ++ "\nError: Missing expected key in API response - '" ++ k ++ "'" ++
          ansiReset, by simp [keyErrLines], ?_⟩
      left
      apply strHasSubAppendLeft
      apply strHasSubAppendLeft
      apply strHasSubAppendLeft
      apply strHasSubAppendRight
      decide
    | idxError =>
      unfold runQuery runAfterKey
      simp only [hlk, hfc, hst, hbody, hex, Bool.false_eq_true, if_false]
      refine ⟨by trivial, by trivial, genericErrLine .idxError, by simp, Or.inr ?_⟩
      decide
    | typeError =>
      unfold runQuery runAfterKey
      simp only [hlk, hfc, hst, hbody, hex, Bool.false_eq_true, if_false]
      refine ⟨by trivial, by trivial, genericErrLine .typeError, by simp, Or.inr ?_⟩
      decide
    | attrError =>
      unfold runQuery runAfterKey
      simp only [hlk, hfc, hst, hbody, hex, Bool.false_eq_true, if_false]
      refine ⟨by trivial, by trivial, genericErrLine .attrError, by simp, Or.inr ?_⟩
      decide

/-- Concrete environment witnessing the amended claim C10: a 500
response. -/
def c10WEnv : QueryEnv :=
  { geminiApiKeyEnv := some "k", apikeyFileContent := none,
    resultsPath := "r.txt", resultsFileContent := some "data", queryArg := "q",
    httpStatus := 500, httpBodyText := "" }

theorem claimC10_witness : c10ErrorOutcome c10WEnv :=
  claimC10_amended c10WEnv [] false "k" "data" rfl rfl (Or.inl (by decide))

/-- Credential characters that are inert for both the JSON quoting layer
and a double-quoted shell context: printable ASCII, excluding the double
quote, the backslash, the dollar sign and the backquote (code 96). -/
def safeKeyChar (c : Char) : Prop :=
  32 ≤ c.toNat ∧ c.toNat ≤ 126 ∧ c ≠ '"' ∧ c ≠ '\\' ∧ c ≠ '$' ∧ c ≠ Char.ofNat 96

instance (c : Char) : Decidable (safeKeyChar c) := by
  unfold safeKeyChar; infer_instance

/-- One plain character inside double quotes joins the current word. -/
theorem shLexCoreDqPlain (c : Char) (T acc : List Char) (h1 : c ≠ '"') (h2 : c ≠ '\\') :
    shLexCore (c :: T) .inDq (some acc) = shLexCore T .inDq (some (acc ++ [c])) := by
  rw [shLexCore.eq_def]
  simp only [Option.getD]
  rw [if_neg h1, if_neg h2]

/-- Inside double quotes, a block of characters free of quotes and
backslashes is consumed verbatim into the current word. -/
theorem shLexCoreDqSafe (rest : List Char) :
    ∀ (l acc : List Char), (∀ c ∈ l, c ≠ '"' ∧ c ≠ '\\') →
      shLexCore (l ++ rest) .inDq (some acc) = shLexCore rest .inDq (some (acc ++ l))
  | [], acc, _ => by simp
  | c :: l, acc, h => by
    have hc := h c (by simp)
    rw [List.cons_append]
    rw [shLexCoreDqPlain c (l ++ rest) acc hc.1 hc.2]
    rw [shLexCoreDqSafe rest l (acc ++ [c]) (fun d hd => h d (by simp [hd]))]
    simp

/-- Inside double quotes, the JSON-escaped form of a block of printable
ASCII characters is consumed back to exactly that block: the shell
unescape of the double-quote context inverts the escaping of
`json.dumps` on this character class. -/
theorem shLexCoreDqJsonEsc (rest : List Char) :
    ∀ (l acc : List Char), (∀ c ∈ l, 32 ≤ c.toNat ∧ c.toNat ≤ 126) →
      shLexCore ((l.map jsonEscChar).flatten ++ rest) .inDq (some acc) =
        shLexCore rest .inDq (some (acc ++ l))
  | [], acc, _ => by simp
  | c :: l, acc, h => by
    have hc := h c (by simp)
    have hrec := shLexCoreDqJsonEsc rest l (acc ++ [c]) (fun d hd => h d (by simp [hd]))
    by_cases h1 : c = '"'
    · subst h1
      have hstep : ∀ T a, shLexCore ('\\' :: '"' :: T) .inDq (some a) =
          shLexCore T .inDq (some (a ++ ['"'])) := fun T a => rfl
      simp only [List.map_cons, List.flatten_cons,
        show jsonEscChar '"' = ['\\', '"'] from rfl, List.append_assoc,
        List.cons_append, List.nil_append]
      rw [hstep, hrec]
      simp
    · by_cases h2 : c = '\\'
      · subst h2
        have hstep : ∀ T a, shLexCore ('\\' :: '\\' :: T) .inDq (some a) =
            shLexCore T .inDq (some (a ++ ['\\'])) := fun T a => rfl
        simp only [List.map_cons, List.flatten_cons,
          show jsonEscChar '\\' = ['\\', '\\'] from rfl, List.append_assoc,
          List.cons_append, List.nil_append]
        rw [hstep, hrec]
        simp
      · have hn1 : c ≠ '\n' := fun e => by subst e; exact absurd hc.1 (by decide)
        have hn2 : c ≠ '\t' := fun e => by subst e; exact absurd hc.1 (by decide)
        have hn3 : c ≠ '\r' := fun e => by subst e; exact absurd hc.1 (by decide)
        have hn4 : c ≠ '\x08' := fun e => by subst e; exact absurd hc.1 (by decide)
        have hn5 : c ≠ '\x0c' := fun e => by subst e; exact absurd hc.1 (by decide)
        have hlt : ¬(c.toNat < 32) := by omega
        have hesc : jsonEscChar c = [c] := by
          unfold jsonEscChar
          rw [if_neg h1, if_neg h2, if_neg hn1, if_neg hn2, if_neg hn3,
            if_neg hn4, if_neg hn5, if_neg hlt, if_pos hc.2]
        simp only [List.map_cons, List.flatten_cons, hesc, List.cons_append,
          List.nil_append]
        rw [shLexCoreDqPlain c _ acc h1 h2]
        rw [hrec]
        simp

/-- Data of a rebuilt string is the original list. -/
theorem strDataMk (l : List Char) : (String.mk l).data = l := rfl

/-- Characters with no lexical role for the shell outside quotes. -/
def shPlainChar (c : Char) : Prop :=
  c ≠ ' ' ∧ c ≠ '\t' ∧ c ≠ '\n' ∧ c ≠ ';' ∧ c ≠ '>' ∧ c ≠ '"' ∧ c ≠ '\'' ∧ c ≠ '\\'

instance (c : Char) : Decidable (shPlainChar c) := by
  unfold shPlainChar; infer_instance

/-- A plain character outside quotes joins the current word. -/
theorem shLexCoreNormalPlain (c : Char) (T : List Char) (cur : Option (List Char))
    (h : shPlainChar c) :
    shLexCore (c :: T) .normal cur = shLexCore T .normal (some (cur.getD [] ++ [c])) := by
  obtain ⟨h1, h2, h3, h4, h5, h6, h7, h8⟩ := h
  rw [shLexCore.eq_def]
  simp [h1, h2, h3, h4, h5, h6, h7, h8]

/-- A space outside quotes flushes the current word. -/
theorem shLexCoreNormalSpace (T : List Char) (cur : Option (List Char)) :
    shLexCore (' ' :: T) .normal cur = (shLexCore T .normal none).map (emitTok cur) := by
  rw [shLexCore.eq_def]
  simp

/-- A double quote outside quotes opens a double-quoted section, keeping
the current word open. -/
theorem shLexCoreNormalDqOpen (T : List Char) (cur : Option (List Char)) :
    shLexCore ('"' :: T) .normal cur = shLexCore T .inDq (some (cur.getD [])) := by
  rw [shLexCore.eq_def]
  simp

/-- Character shape of the inner elevated write command. -/
theorem innerCommandData (key : String) :
    (innerCommand key).data =
      ['e', 'c', 'h', 'o', ' ', '"'] ++
        (key.data ++ (['"', ' ', '>', ' '] ++ apikeyFilePath.data)) := by
  unfold innerCommand
  rw [strDataAppend, strDataAppend, strDataAppend]
  rw [show ("echo \"" : String).data = ['e', 'c', 'h', 'o', ' ', '"'] from rfl,
    show ("\" > " : String).data = ['"', ' ', '>', ' '] from rfl]
  simp [List.append_assoc]

/-- Claim C1 (amended).  For credential strings whose characters are
printable ASCII and avoid the double quote, backslash, dollar and
backquote, both layers behave as the claim states: the outer shell parses
exactly `sudo sh -c` plus the inner command as one word (the json.dumps
quoting layer is inverted exactly), and the inner shell parses exactly one
`echo` of the credential as a single word redirected into the fallback
file, which writes the credential text (followed by a newline). -/
theorem claimC1_amended (key : String) (h : ∀ c ∈ key.data, safeKeyChar c) :
    commandStructurePreserved key := by
  have hsafe : ∀ c ∈ key.data, c ≠ '"' ∧ c ≠ '\\' :=
    fun c hc => ⟨(h c hc).2.2.1, (h c hc).2.2.2.1⟩
  have hprint : ∀ c ∈ key.data, 32 ≤ c.toNat ∧ c.toNat ≤ 126 :=
    fun c hc => ⟨(h c hc).1, (h c hc).2.1⟩
  have hA : ∀ c ∈ (['e', 'c', 'h', 'o', ' ', '"'] : List Char),
      32 ≤ c.toNat ∧ c.toNat ≤ 126 := by decide
  have hB : ∀ c ∈ (['"', ' ', '>', ' '] : List Char),
      32 ≤ c.toNat ∧ c.toNat ≤ 126 := by decide
  have hC : ∀ c ∈ apikeyFilePath.data, 32 ≤ c.toNat ∧ c.toNat ≤ 126 := by decide
  have hinnerPrint : ∀ c ∈ (innerCommand key).data, 32 ≤ c.toNat ∧ c.toNat ≤ 126 := by
    intro c hc
    rw [innerCommandData] at hc
    rcases List.mem_append.mp hc with h1 | h1
    · exact hA c h1
    · rcases List.mem_append.mp h1 with h2 | h2
      · exact hprint c h2
      · rcases List.mem_append.mp h2 with h3 | h3
        · exact hB c h3
        · exact hC c h3
  constructor
  · -- outer layer: sudo sh -c with the inner command as one quoted word
    show shLexCore (fullCommand (innerCommand key)).data .normal none = _
    have hdataOuter : (fullCommand (innerCommand key)).data =
        ['s', 'u', 'd', 'o', ' ', 's', 'h', ' ', '-', 'c', ' ', '"'] ++
          (((innerCommand key).data.map jsonEscChar).flatten ++ ['"']) := by
      unfold fullCommand jsonQuote
      rw [strDataAppend, strDataAppend, strDataAppend]
      rw [show ("sudo sh -c " : String).data =
            ['s', 'u', 'd', 'o', ' ', 's', 'h', ' ', '-', 'c', ' '] from rfl,
        show ("\"" : String).data = ['"'] from rfl, strDataMk]
      simp [List.append_assoc]
    rw [hdataOuter]
    simp only [List.cons_append, List.nil_append]
    rw [shLexCoreNormalPlain 's' _ _ (by decide)]
    rw [shLexCoreNormalPlain 'u' _ _ (by decide)]
    rw [shLexCoreNormalPlain 'd' _ _ (by decide)]
    rw [shLexCoreNormalPlain 'o' _ _ (by decide)]
    rw [shLexCoreNormalSpace]
    rw [shLexCoreNormalPlain 's' _ _ (by decide)]
    rw [shLexCoreNormalPlain 'h' _ _ (by decide)]
    rw [shLexCoreNormalSpace]
    rw [shLexCoreNormalPlain '-' _ _ (by decide)]
    rw [shLexCoreNormalPlain 'c' _ _ (by decide)]
    rw [shLexCoreNormalSpace]
    rw [shLexCoreNormalDqOpen]
    simp only [Option.getD_none, Option.getD_some, List.nil_append, List.cons_append]
    rw [shLexCoreDqJsonEsc ['"'] (innerCommand key).data [] hinnerPrint]
    simp only [List.nil_append]
    rw [show shLexCore ['"'] .inDq (some (innerCommand key).data) =
          some [ShTok.word (String.mk (innerCommand key).data)] from rfl]
    rfl
  · -- inner layer: echo of the key as one word, redirected into the file
    show shLexCore (innerCommand key).data .normal none = _
    rw [innerCommandData]
    simp only [List.cons_append, List.nil_append]
    rw [shLexCoreNormalPlain 'e' _ _ (by decide)]
    rw [shLexCoreNormalPlain 'c' _ _ (by decide)]
    rw [shLexCoreNormalPlain 'h' _ _ (by decide)]
    rw [shLexCoreNormalPlain 'o' _ _ (by decide)]
    rw [shLexCoreNormalSpace]
    rw [shLexCoreNormalDqOpen]
    simp only [Option.getD_none, Option.getD_some, List.nil_append, List.cons_append]
    rw [shLexCoreDqSafe ('"' :: ' ' :: '>' :: ' ' :: apikeyFilePath.data) key.data [] hsafe]
    simp only [List.nil_append]
    rw [show shLexCore ('"' :: ' ' :: '>' :: ' ' :: apikeyFilePath.data) .inDq
          (some key.data) =
        some [ShTok.word (String.mk key.data), ShTok.redirOut,
          ShTok.word apikeyFilePath] from rfl]
    rfl

theorem claimC1_witness : commandStructurePreserved "AIzaSyTest123" :=
  claimC1_amended "AIzaSyTest123" (by decide)

/-- Claim C1 as stated is false: for the credential
`x"; echo pwned; "y` (unchanged by the prompt strip), the inner command
does not parse as a single echo of the credential; instead the double
quote in the credential closes the quoting and the inner shell sees three
commands, with `echo pwned` injected, so the credential content does alter
the command structure and the command executed does not write the
credential text. -/
theorem claimC1_counterexample :
    ¬ commandStructurePreserved (pyStrip "x\"; echo pwned; \"y") ∧
    shLex (innerCommand (pyStrip "x\"; echo pwned; \"y")) =
      some [ShTok.word "echo", ShTok.word "x", ShTok.semi, ShTok.word "echo",
        ShTok.word "pwned", ShTok.semi, ShTok.word "y", ShTok.redirOut,
        ShTok.word apikeyFilePath] := by
  constructor
  · decide
  · decide
